import Mathlib

/-!
Shallow embedding of the ouster-ros scan-to-cloud conversion core
(src/os_ros.cpp together with include/ouster_ros/os_point.h).

Modelling conventions:
* C++ unsigned integers are `Nat` with explicit `% 2^w` at every narrowing
  cast; C++ signed integers are `Int` (overflow of `int64_t` is not modelled,
  theorems restrict inputs to the representable range where it matters).
* `float` / `double` values are modelled as real numbers carried opaquely;
  none of the verified properties depends on rounding.
* A `pcl::PointCloud<ouster_ros::Point>` is a `width x height` header plus a
  flat point vector; the PCL 2-D accessors `at(col,row)` / `operator()(col,row)`
  index `points[row * width + col]`.
* Functions that can throw in C++ return `Except String`; a reference
  out-parameter that may already have been written when a callee throws is
  returned explicitly as part of the result state.
-/

/-- One `ouster_ros::Point` (os_point.h): xyz plus the padding coordinate of
PCL_ADD_POINT4D, intensity, timestamp `t` (uint32), reflectivity (uint16),
ring (uint16), ambient (uint16), range (uint32), color (uint32). -/
structure Point where
  x : ℝ
  y : ℝ
  z : ℝ
  pw : ℝ
  intensity : ℝ
  t : ℕ
  reflectivity : ℕ
  ring : ℕ
  ambient : ℕ
  range : ℕ
  color : ℕ

/-- The value-initialized point produced by the PCL cloud constructors
(all fields zero). -/
def Point.zero : Point :=
  { x := 0, y := 0, z := 0, pw := 0, intensity := 0, t := 0,
    reflectivity := 0, ring := 0, ambient := 0, range := 0, color := 0 }

/-- A `pcl::PointCloud<ouster_ros::Point>` (alias `ouster_ros::Cloud`):
`width`/`height` header fields (uint32 in PCL) and the flat `points` vector,
where pixel (row `u`, column `v`) lives at `points[u * width + v]`. -/
structure Cloud where
  width : ℕ
  height : ℕ
  points : List Point

/-- Well-formedness of an organized PCL cloud: the point vector matches the
grid header and the header fits the uint32 fields it is stored in. -/
def Cloud.wf (c : Cloud) : Prop :=
  c.points.length = c.width * c.height ∧ c.width < 2 ^ 32 ∧ c.height < 2 ^ 32

/-- Entry of a cloud at (column `col`, row `row`), the index order of PCL
`at` / `operator()`: `points[row * width + col]`. -/
def Cloud.pix (c : Cloud) (col row : ℕ) : Point :=
  c.points.getD (row * c.width + col) Point.zero

/-- Row `u` of the cloud as a list of `width` points. -/
def Cloud.row (c : Cloud) (u : ℕ) : List Point :=
  (c.points.drop (u * c.width)).take c.width

/-- The row offset computed at os_ros.cpp:292-293:
`(pixel_shift_by_row[asd] + destaggered.width) % destaggered.width`.
`pixel_shift_by_row[asd]` is a C++ `int` and `destaggered.width` a
`uint32_t`, so the sum is computed in `uint32_t` (the `int` is converted
modulo 2^32) and the `%` is unsigned; the result is therefore always in
`[0, width)` but for shifts below `-width` it differs from the
mathematical normalization `((s mod w) + w) mod w` unless `w` divides 2^32. -/
def cppOffset (shift : Int) (w : ℕ) : ℕ :=
  (((shift % (2 ^ 32 : Int)).toNat + w) % 2 ^ 32) % w

/-- The per-row body of `clouddestagger` (os_ros.cpp:289-303) on one row of
`w` points: starting from a freshly value-initialized row, the first loop
copies source entries `0, 1, ...` to columns `offset <= j < w - offset`, then
the second loop copies source entries starting at `w - offset` to columns
`0 <= j < offset`.  Columns `j >= max(offset, w - offset)` are never written
and keep the constructor's zero point. -/
def destaggerRow (w offset : ℕ) (src : List Point) : List Point :=
  let dest0 := List.replicate w Point.zero
  let dest1 := (List.range (w - offset - offset)).foldl
    (fun d i => d.set (offset + i) (src.getD i Point.zero)) dest0
  (List.range offset).foldl
    (fun d j => d.set j (src.getD (w - offset + j) Point.zero)) dest1

/-- Embedding of `ouster_ros::clouddestagger` (os_ros.cpp:281-306).  A fresh
cloud of the same dimensions is value-initialized, the shift-table length is
checked against the height (throwing `std::invalid_argument` on mismatch,
modelled as `Except.error`), and each row is rewritten by `destaggerRow`. -/
def clouddestagger (cloud : Cloud) (pixel_shift_by_row : List Int) :
    Except String Cloud :=
  if pixel_shift_by_row.length ≠ cloud.height then
    Except.error "image height does not match shifts size"
  else
    Except.ok
      { width := cloud.width, height := cloud.height,
        points := ((List.range cloud.height).map (fun asd =>
          destaggerRow cloud.width
            (cppOffset (pixel_shift_by_row.getD asd 0) cloud.width)
            (cloud.row asd))).flatten }

/-- Mathematical normalization of a shift used by the spec:
`o = ((s mod width) + width) mod width`. -/
def normOffset (shift : Int) (w : ℕ) : ℕ :=
  (((shift % (w : Int)) + w) % w).toNat

/-- Modelled from the spec: the repository has no re-stagger routine, so the
inverse described in spec section 4.4 is modelled from its words: for each
row with normalized offset `o`, re-staggering applies the row-circular shift
with shift `width - o`, i.e. output column `k` receives input column
`(k + (width - o)) % width`. -/
def spec_restagger (c : Cloud) (shifts : List Int) : Cloud :=
  { width := c.width, height := c.height,
    points := ((List.range c.height).map (fun u =>
      let o := normOffset (shifts.getD u 0) c.width
      (List.range c.width).map (fun k =>
        (c.row u).getD ((k + (c.width - o)) % c.width) Point.zero))).flatten }

/-- The logical channels of `sensor::ChanField` that os_ros.cpp touches;
`OTHER` stands for the remaining enumerators, which fall into the
`default: throw std::runtime_error("Unreachable")` branch of
`suitable_return`. -/
inductive ChanField where
  | RANGE
  | RANGE2
  | SIGNAL
  | SIGNAL2
  | REFLECTIVITY
  | REFLECTIVITY2
  | NEAR_IR
  | OTHER
deriving DecidableEq

/-- A channel matrix: per-pixel unsigned value at (row, column).  The Eigen
images in the source are row-major, so `data()[u * w + v]` is entry (u, v). -/
def Mat : Type := ℕ → ℕ → ℕ

/-- The already-parsed range-image frame (`ouster::LidarScan`): dimensions,
per-column timestamps (uint64 nanoseconds) and the populated channels.
`fields f = none` models a channel absent from the scan configuration, the
case `ls.field_type(f)` reports as empty. -/
structure LidarScan where
  h : ℕ
  w : ℕ
  timestamp : ℕ → ℕ
  fields : ChanField → Option Mat

/-- Embedding of `suitable_return` (os_ros.cpp:94-113): maps a channel to its
primary or secondary variant; NEAR_IR has no secondary and resolves to
itself; any other enumerator throws `std::runtime_error("Unreachable")`. -/
def suitable_return (input_field : ChanField) (second : Bool) :
    Except String ChanField :=
  match input_field with
  | ChanField.RANGE | ChanField.RANGE2 =>
      Except.ok (if second then ChanField.RANGE2 else ChanField.RANGE)
  | ChanField.SIGNAL | ChanField.SIGNAL2 =>
      Except.ok (if second then ChanField.SIGNAL2 else ChanField.SIGNAL)
  | ChanField.REFLECTIVITY | ChanField.REFLECTIVITY2 =>
      Except.ok (if second then ChanField.REFLECTIVITY2 else ChanField.REFLECTIVITY)
  | ChanField.NEAR_IR => Except.ok ChanField.NEAR_IR
  | ChanField.OTHER => Except.error "Unreachable"

/-- Embedding of `get_or_fill_zero<T>` (os_ros.cpp:115-125): an absent
channel yields `img_t<T>::Zero(h, w)`; a present one is read through
`read_and_cast`, whose `cast<U>()` to the unsigned target of `bits` bits is
value reduction modulo `2 ^ bits`. -/
def get_or_fill_zero (bits : ℕ) (f : ChanField) (ls : LidarScan) : Mat :=
  match ls.fields f with
  | none => fun _ _ => 0
  | some m => fun u v => m u v % 2 ^ bits

/-- Embedding of the direct `ls.field<uint32_t>(f)` fetch used for range in
`scan_to_cloud_f` (os_ros.cpp:219): unlike `get_or_fill_zero` it throws when
the channel is absent from the scan. -/
def lidar_field (ls : LidarScan) (f : ChanField) : Except String Mat :=
  match ls.fields f with
  | some m => Except.ok (fun u v => m u v % 2 ^ 32)
  | none => Except.error "LidarScan does not contain field"

/-- Modelled from the spec: `ouster::cartesianT` / `ouster::cartesian` live in
the external sensor library, so projection is modelled from spec section 4.2:
per pixel `idx`, `point = direction * range + offset`, and a zero range
projects to the zero vector. -/
noncomputable def cartesianT (range : Mat) (w : ℕ) (dir off : ℕ → ℝ × ℝ × ℝ) :
    ℕ → ℝ × ℝ × ℝ := fun idx =>
  let r : ℕ := range (idx / w) (idx % w)
  if r = 0 then (0, 0, 0)
  else ((dir idx).1 * r + (off idx).1,
        (dir idx).2.1 * r + (off idx).2.1,
        (dir idx).2.2 * r + (off idx).2.2)

/-- The per-point timestamp of `copy_scan_to_cloud` (os_ros.cpp:186-187,194):
`std::min(nanoseconds(timestamp[v]) - scan_ts, scan_ts)` followed by
`static_cast<uint32_t>`, i.e. reduction of the signed count modulo 2^32
(wrapping when the minimum is negative). -/
def copy_scan_ts (tsv : ℕ) (scan_ts : Int) : ℕ :=
  ((min ((tsv : Int) - scan_ts) scan_ts) % (2 ^ 32 : Int)).toNat

/-- The per-point timestamp of `scan_to_cloud` (os_ros.cpp:151-152,157):
`(nanoseconds(timestamp[v]) - scan_ts).count()` cast to `uint32_t` with no
clamping at all. -/
def scan_raw_ts (tsv : ℕ) (scan_ts : Int) : ℕ :=
  (((tsv : Int) - scan_ts) % (2 ^ 32 : Int)).toNat

/-- The point record built for pixel (u, v) by `copy_scan_to_cloud`
(os_ros.cpp:190-199): xyz from the projected points at `idx = u*w + v` with
fourth coordinate 1.0f, intensity from signal, the min-clamped timestamp,
reflectivity and near-ir as uint16, `ring = static_cast<uint16_t>(u)`,
range as uint32; the `color` field is not named and stays value-initialized. -/
noncomputable def copyPoint (ls : LidarScan) (scan_ts : Int)
    (pointsF : ℕ → ℝ × ℝ × ℝ) (rg rf nr sg : Mat) (u v : ℕ) : Point :=
  let idx := u * ls.w + v
  { x := (pointsF idx).1, y := (pointsF idx).2.1, z := (pointsF idx).2.2,
    pw := 1,
    intensity := (sg u v : ℝ),
    t := copy_scan_ts (ls.timestamp v) scan_ts,
    reflectivity := rf u v % 2 ^ 16,
    ring := u % 2 ^ 16,
    ambient := nr u v % 2 ^ 16,
    range := rg u v % 2 ^ 32,
    color := 0 }

/-- Embedding of `copy_scan_to_cloud` (os_ros.cpp:166-202): for every
`u < ls.h`, `v < ls.w` the record for (u, v) is stored at
`cloud.points[u * ls.w + v]`; the cloud header is not touched.  A write
past `points.size()` would be undefined behaviour in C++ and is a no-op
here (`List.set` out of range); the caller asserts the dimensions match. -/
noncomputable def copy_scan_to_cloud (cloud : Cloud) (ls : LidarScan)
    (scan_ts : Int) (pointsF : ℕ → ℝ × ℝ × ℝ) (rg rf nr sg : Mat) : Cloud :=
  { cloud with
    points := (List.range ls.h).foldl (fun pts u =>
      (List.range ls.w).foldl (fun pts2 v =>
        pts2.set (u * ls.w + v) (copyPoint ls scan_ts pointsF rg rf nr sg u v))
        pts) cloud.points }

/-- PCL `PointCloud::resize(n)`: the point vector is resized (new cells
value-initialized) and, when `width * height != n`, the header becomes the
unorganized `n x 1`. -/
def Cloud.resize (c : Cloud) (n : ℕ) : Cloud :=
  let pts := if n ≤ c.points.length then c.points.take n
             else c.points ++ List.replicate (n - c.points.length) Point.zero
  if c.width * c.height ≠ n then { width := n, height := 1, points := pts }
  else { c with points := pts }

/-- The point record built for pixel (u, v) by `scan_to_cloud`
(os_ros.cpp:153-161); unlike `copy_scan_to_cloud` it uses the unclamped
timestamp and casts the ring to `uint8_t`. -/
noncomputable def scanPoint (ls : LidarScan) (scan_ts : Int)
    (pointsF : ℕ → ℝ × ℝ × ℝ) (rg rf nr sg : Mat) (u v : ℕ) : Point :=
  let idx := u * ls.w + v
  { x := (pointsF idx).1, y := (pointsF idx).2.1, z := (pointsF idx).2.2,
    pw := 1,
    intensity := (sg u v : ℝ),
    t := scan_raw_ts (ls.timestamp v) scan_ts,
    reflectivity := rf u v % 2 ^ 16,
    ring := u % 2 ^ 8,
    ambient := nr u v % 2 ^ 16,
    range := rg u v % 2 ^ 32,
    color := 0 }

/-- Embedding of `scan_to_cloud` (os_ros.cpp:127-164): resize to
`ls.w * ls.h`, extract the four channels through
`suitable_return` / `get_or_fill_zero`, project, and write
`cloud(v, u) = points[u * cloud.width + v]` for every pixel (the `width`
used by `operator()` is the post-resize header width). -/
noncomputable def scan_to_cloud (xyz_dir xyz_off : ℕ → ℝ × ℝ × ℝ)
    (scan_ts : Int) (ls : LidarScan) (cloud : Cloud) (return_index : Int) :
    Except String Cloud := do
  let second := return_index == 1
  let cloud1 := cloud.resize (ls.w * ls.h)
  let nearf ← suitable_return ChanField.NEAR_IR second
  let near_ir := get_or_fill_zero 16 nearf ls
  let rangef ← suitable_return ChanField.RANGE second
  let range := get_or_fill_zero 32 rangef ls
  let sigf ← suitable_return ChanField.SIGNAL second
  let signal := get_or_fill_zero 32 sigf ls
  let reflf ← suitable_return ChanField.REFLECTIVITY second
  let reflectivity := get_or_fill_zero 16 reflf ls
  let pointsF := cartesianT range ls.w xyz_dir xyz_off
  pure { cloud1 with
    points := (List.range ls.h).foldl (fun pts u =>
      (List.range ls.w).foldl (fun pts2 v =>
        pts2.set (u * cloud1.width + v)
          (scanPoint ls scan_ts pointsF range reflectivity near_ir signal u v))
        pts) cloud1.points }

/-- Embedding of `scan_to_cloud_f` (os_ros.cpp:204-246).  The result is the
final state of the two reference out-parameters `cloud` and
`destaggeredcloud` together with the outcome: `Except.error` models the
`assert` on the cloud dimensions, the throwing `ls.field` fetch of the range
channel, an `Unreachable` from `suitable_return`, or the
`std::invalid_argument` of `clouddestagger`.  In the destagger branch the
source executes `destaggeredcloud = cloud;` before calling `clouddestagger`,
so when the latter throws, the caller's buffer is left holding the native
cloud. -/
noncomputable def scan_to_cloud_f (lut_direction lut_offset : ℕ → ℝ × ℝ × ℝ)
    (scan_ts : Int) (ls : LidarScan) (cloud destaggeredcloud : Cloud)
    (return_index : Int) (pixel_shift_by_row : List Int) (destagger : Bool) :
    Cloud × Cloud × Except String Unit :=
  let second := return_index == 1
  if cloud.width = ls.w ∧ cloud.height = ls.h then
    match lidar_field ls (if second then ChanField.RANGE2 else ChanField.RANGE),
          suitable_return ChanField.REFLECTIVITY second,
          suitable_return ChanField.SIGNAL second,
          suitable_return ChanField.NEAR_IR second with
    | Except.ok range, Except.ok reflf, Except.ok sigf, Except.ok nearf =>
      let reflectivity := get_or_fill_zero 16 reflf ls
      let signal := get_or_fill_zero 32 sigf ls
      let near_ir := get_or_fill_zero 16 nearf ls
      let pointsF := cartesianT range ls.w lut_direction lut_offset
      let cloud1 := copy_scan_to_cloud cloud ls scan_ts pointsF range
        reflectivity near_ir signal
      if destagger then
        match clouddestagger cloud1 pixel_shift_by_row with
        | Except.ok d => (cloud1, d, Except.ok ())
        | Except.error e => (cloud1, cloud1, Except.error e)
      else (cloud1, destaggeredcloud, Except.ok ())
    | Except.error e, _, _, _ => (cloud, destaggeredcloud, Except.error e)
    | _, Except.error e, _, _ => (cloud, destaggeredcloud, Except.error e)
    | _, _, Except.error e, _ => (cloud, destaggeredcloud, Except.error e)
    | _, _, _, Except.error e => (cloud, destaggeredcloud, Except.error e)
  else
    (cloud, destaggeredcloud,
     Except.error "assert failed: point cloud and lidar scan size mismatch")

/-- The C library `atan2(y, x)`, modelled exactly as the argument of the
complex number `x + y i` in `(-pi, pi]` (with `atan2 0 0 = 0`). -/
noncomputable def atan2 (y x : ℝ) : ℝ := Complex.arg ⟨x, y⟩

/-- The azimuth comparison of the first loop of `checkofDestagger`
(os_ros.cpp:251-262): the pair at columns (i, i+1) of row index 1 fails when
the azimuth strictly increases and both angles are nonzero. -/
noncomputable def azBad (c : Cloud) (i : ℕ) : Prop :=
  let cp := c.pix i 1
  let np := c.pix (i + 1) 1
  atan2 cp.y cp.x < atan2 np.y np.x ∧ atan2 cp.y cp.x ≠ 0 ∧ atan2 np.y np.x ≠ 0

/-- The elevation comparison of the second loop of `checkofDestagger`
(os_ros.cpp:265-276): the pair at rows (i, i+1) of column index 1 fails when
`atan2(z, range)` strictly increases and both angles are nonzero. -/
noncomputable def elBad (c : Cloud) (i : ℕ) : Prop :=
  let cp := c.pix 1 i
  let np := c.pix 1 (i + 1)
  atan2 cp.z (cp.range : ℝ) < atan2 np.z (np.range : ℝ) ∧
    atan2 cp.z (cp.range : ℝ) ≠ 0 ∧ atan2 np.z (np.range : ℝ) ≠ 0

/-- An early-return scan loop: `loopOk bad n` holds exactly when none of the
iterations `0, ..., n-1` hits `bad` (the loop returns false at the first bad
index, true after the last iteration). -/
def loopOk (bad : ℕ → Prop) : ℕ → Prop
  | 0 => True
  | n + 1 => loopOk bad n ∧ ¬ bad n

/-- Embedding of `checkofDestagger` (os_ros.cpp:248-278): a diagnostic
boolean verdict (modelled as a Prop because the angles are real), scanning
`width - 1` column pairs of row 1 and `height - 1` row pairs of column 1.
The loop bounds are uint32 subtractions, so the model assumes
`width, height >= 1` (for 0 the C++ bound wraps around). -/
noncomputable def checkofDestagger (c : Cloud) : Prop :=
  loopOk (azBad c) (c.width - 1) ∧ loopOk (elBad c) (c.height - 1)

/-- The `sensor_msgs::Imu` fields set by `packet_to_imu_msg`; the covariance
arrays are 9-entry row-major 3x3 matrices. -/
structure ImuMsg where
  stamp : Int
  frame_id : String
  orientation_x : ℝ
  orientation_y : ℝ
  orientation_z : ℝ
  orientation_w : ℝ
  linear_acceleration_x : ℝ
  linear_acceleration_y : ℝ
  linear_acceleration_z : ℝ
  angular_velocity_x : ℝ
  angular_velocity_y : ℝ
  angular_velocity_z : ℝ
  orientation_covariance : Fin 9 → ℝ
  angular_velocity_covariance : Fin 9 → ℝ
  linear_acceleration_covariance : Fin 9 → ℝ

/-- Embedding of `packet_to_imu_msg` (os_ros.cpp:41-76), with the raw packet
readings `pf.imu_la_*` / `pf.imu_av_*` abstracted as six real inputs:
orientation is all zero; accelerations are scaled by `standard_g = 9.80665`;
angular velocities by `M_PI / 180`; the first loop writes -1 / 0 / 0 into all
nine covariance entries, the second (`i += 4`, `i < 9`, hence exactly the
indices with `i % 4 = 0`: the diagonal 0, 4, 8) overwrites the acceleration
diagonal with 0.01 and the angular-velocity diagonal with 6e-4. -/
noncomputable def packet_to_imu_msg (timestamp : Int) (frame : String)
    (la_x la_y la_z av_x av_y av_z : ℝ) : ImuMsg :=
  let standard_g : ℝ := 9.80665
  { stamp := timestamp
    frame_id := frame
    orientation_x := 0
    orientation_y := 0
    orientation_z := 0
    orientation_w := 0
    linear_acceleration_x := la_x * standard_g
    linear_acceleration_y := la_y * standard_g
    linear_acceleration_z := la_z * standard_g
    angular_velocity_x := av_x * Real.pi / 180
    angular_velocity_y := av_y * Real.pi / 180
    angular_velocity_z := av_z * Real.pi / 180
    orientation_covariance := fun _ => -1
    angular_velocity_covariance := fun i => if i.val % 4 = 0 then 6e-4 else 0
    linear_acceleration_covariance := fun i => if i.val % 4 = 0 then 0.01 else 0 }

/-- Concrete points used in the counterexample evaluations; they differ from
`Point.zero` only in the integer `range` field so that disequalities are
decidable. -/
def Pa : Point := { Point.zero with range := 1 }

/-- Second concrete point (range 2). -/
def Pb : Point := { Point.zero with range := 2 }

/-- Third concrete point (range 3). -/
def Pc : Point := { Point.zero with range := 3 }

/-- Fourth concrete point (range 4). -/
def Pd : Point := { Point.zero with range := 4 }

/-- The zero direction/offset table used where the projected coordinates do
not matter. -/
def dir0 : ℕ → ℝ × ℝ × ℝ := fun _ => (0, 0, 0)

/-- The all-zero channel matrix. -/
def zeroM : Mat := fun _ _ => 0

/-- A 1 x 1 frame with no populated channels whose single column timestamp
is 500 ns. -/
def lsLate : LidarScan :=
  { h := 1, w := 1, timestamp := fun _ => 500, fields := fun _ => none }

/-- A 1 x 1 frame whose RANGE channel is present with constant value 5. -/
def lsR5 : LidarScan :=
  { h := 1, w := 1, timestamp := fun _ => 0,
    fields := fun f => if f = ChanField.RANGE then some (fun _ _ => 5) else none }

/-- A 1 x 1 cloud holding one zero point. -/
def cloud11 : Cloud := { width := 1, height := 1, points := [Point.zero] }

/-- A 1 x 1 cloud holding the point `Pa`. -/
def cloudPa : Cloud := { width := 1, height := 1, points := [Pa] }

/-- Validator counterexample points: on the positive x axis with elevation
-45 degrees worth of data (z = -1, range = 0). -/
def A0 : Point := { Point.zero with x := 1, z := -1 }

/-- Validator counterexample point with z = 1, range = 0. -/
def A1 : Point := { Point.zero with x := 1, z := 1 }

/-- Validator counterexample point with zero angles (x = 1, z = 0,
range = 1). -/
def B1 : Point := { Point.zero with x := 1, range := 1 }

/-- The 2 x 2 cloud (rows [A0, B1] and [A1, B1]) on which the validator
verdict and the claimed verdict of C9 differ. -/
def K9 : Cloud := { width := 2, height := 2, points := [A0, B1, A1, B1] }

/-- The verdict predicate asserted by claim C9, following the claim's words
(kept separate from the source embedding `checkofDestagger` so the two can
be compared): azimuth non-increasing across columns within every row,
elevation non-increasing down column 0 across rows, skipping degenerate
(0,0) samples. -/
noncomputable def C9_claimed (c : Cloud) : Prop :=
  (∀ u < c.height, ∀ i, i + 1 < c.width →
    ¬ (atan2 (c.pix i u).y (c.pix i u).x
          < atan2 (c.pix (i + 1) u).y (c.pix (i + 1) u).x ∧
       ¬ ((c.pix i u).x = 0 ∧ (c.pix i u).y = 0) ∧
       ¬ ((c.pix (i + 1) u).x = 0 ∧ (c.pix (i + 1) u).y = 0))) ∧
  (∀ i, i + 1 < c.height →
    ¬ (atan2 (c.pix 0 i).z ((c.pix 0 i).range : ℝ)
          < atan2 (c.pix 0 (i + 1)).z ((c.pix 0 (i + 1)).range : ℝ) ∧
       ¬ ((c.pix 0 i).z = 0 ∧ (c.pix 0 i).range = 0) ∧
       ¬ ((c.pix 0 (i + 1)).z = 0 ∧ (c.pix 0 (i + 1)).range = 0)))

section Helpers

lemma foldl_set_range {α : Type} (g : ℕ → α) (a : ℕ) (n : ℕ) :
    ∀ (init : List α), a + n ≤ init.length →
      (List.range n).foldl (fun d i => d.set (a + i) (g i)) init =
        init.take a ++ (List.range n).map g ++ init.drop (a + n) := by
  induction n with
  | zero =>
    intro init h
    simp
  | succ n ih =>
    intro init h
    rw [List.range_succ, List.foldl_append, List.foldl_cons, List.foldl_nil,
      ih init (by omega)]
    have hta : (init.take a).length = a := by
      rw [List.length_take]; omega
    have hmg : ((List.range n).map g).length = n := by simp
    rw [List.append_assoc, List.set_append_right _ _ (by rw [hta]; omega), hta,
      Nat.add_sub_cancel_left, List.set_append_right _ _ (by rw [hmg]), hmg,
      Nat.sub_self]
    have hdrop : init.drop (a + n) = init[a + n] :: init.drop (a + n + 1) :=
      List.drop_eq_getElem_cons (by omega)
    simp only [List.range_succ, List.map_append, List.append_assoc,
      List.singleton_append, List.cons_append]
    rw [hdrop]
    rfl

lemma map_getD_range {α : Type} (l : List α) (d : α) (n : ℕ) (h : l.length = n) :
    (List.range n).map (fun k => l.getD k d) = l := by
  apply List.ext_getElem
  · simp [h]
  · intro i h1 h2
    have hi : i < n := by simpa using h1
    simp [List.getD_eq_getElem?_getD, List.getElem?_eq_getElem h2]

lemma flatten_chunks {α : Type} (w : ℕ) :
    ∀ (h : ℕ) (l : List α), l.length = w * h →
      ((List.range h).map (fun u => (l.drop (u * w)).take w)).flatten = l := by
  intro h
  induction h with
  | zero =>
    intro l hl
    simp at hl
    simp [hl]
  | succ h ih =>
    intro l hl
    rw [List.range_succ_eq_map, List.map_cons, List.map_map, List.flatten_cons]
    have hrest : ∀ u : ℕ, ((l.drop ((u + 1) * w)).take w) =
        (((l.drop w).drop (u * w)).take w) := by
      intro u
      rw [List.drop_drop]
      ring_nf
    have hcomp : ((fun u => (l.drop (u * w)).take w) ∘ Nat.succ) =
        (fun u => ((l.drop w).drop (u * w)).take w) := by
      funext u
      simpa using hrest u
    rw [hcomp, ih (l.drop w) (by simp [hl, Nat.mul_succ])]
    simp

lemma loopOk_iff (bad : ℕ → Prop) (n : ℕ) : loopOk bad n ↔ ∀ i < n, ¬ bad i := by
  induction n with
  | zero => simp [loopOk]
  | succ n ih =>
    rw [loopOk, ih]
    constructor
    · rintro ⟨h1, h2⟩ i hi
      rcases Nat.lt_succ_iff_lt_or_eq.mp hi with h3 | h3
      · exact h1 i h3
      · exact h3 ▸ h2
    · intro h1
      exact ⟨fun i hi => h1 i (Nat.lt_succ_of_lt hi), h1 n (Nat.lt_succ_self n)⟩

lemma cppOffset_zero (w : ℕ) (hw : w < 2 ^ 32) : cppOffset 0 w = 0 := by
  unfold cppOffset
  have hw2 : w < 4294967296 := by simpa using hw
  norm_num
  rw [Nat.mod_eq_of_lt hw2, Nat.mod_self]

lemma getD_replicate_zero (h asd : ℕ) : (List.replicate h (0 : Int)).getD asd 0 = 0 := by
  rcases Nat.lt_or_ge asd h with h1 | h1
  · simp [List.getD_eq_getElem?_getD, List.getElem?_replicate, h1]
  · rw [List.getD_eq_getElem?_getD,
      List.getElem?_eq_none (by simp only [List.length_replicate]; exact h1)]
    rfl

lemma row_length (c : Cloud) (hl : c.points.length = c.width * c.height)
    (u : ℕ) (hu : u < c.height) : (c.row u).length = c.width := by
  simp only [Cloud.row, List.length_take, List.length_drop, hl]
  have h2 : c.width * (u + 1) ≤ c.width * c.height := Nat.mul_le_mul_left _ hu
  have h3 : c.width * (u + 1) = c.width * u + c.width := Nat.mul_succ c.width u
  have h4 : u * c.width = c.width * u := Nat.mul_comm u c.width
  omega

lemma destaggerRow_zero (w : ℕ) (src : List Point) (h : src.length = w) :
    destaggerRow w 0 src = src := by
  unfold destaggerRow
  simp only [Nat.sub_zero, List.range_zero, List.foldl_nil]
  have h0 : (0 : ℕ) + w ≤ (List.replicate w Point.zero).length := by simp
  have := foldl_set_range (fun i => src.getD i Point.zero) 0 w
    (List.replicate w Point.zero) h0
  simp only [Nat.zero_add] at this ⊢
  rw [this, List.take_zero, List.nil_append,
    List.drop_eq_nil_of_le (by simp), List.append_nil]
  exact map_getD_range src Point.zero w h

lemma length_flatten_rows {α : Type} (g : ℕ → ℕ → α) (w h : ℕ) :
    (((List.range h).map (fun u => (List.range w).map (g u))).flatten).length
      = h * w := by
  induction h with
  | zero => simp
  | succ h ih =>
    rw [List.range_succ, List.map_append, List.flatten_append]
    simp [ih, Nat.succ_mul]

lemma foldl_grid {α : Type} (g : ℕ → ℕ → α) (w : ℕ) :
    ∀ (h : ℕ) (init : List α), h * w ≤ init.length →
      (List.range h).foldl (fun pts u =>
          (List.range w).foldl (fun pts2 v => pts2.set (u * w + v) (g u v)) pts)
        init
      = ((List.range h).map (fun u => (List.range w).map (g u))).flatten
          ++ init.drop (h * w) := by
  intro h
  induction h with
  | zero =>
    intro init hlen
    simp
  | succ h ih =>
    intro init hlen
    rw [List.range_succ, List.foldl_append, List.foldl_cons, List.foldl_nil,
      ih init (by
        have h5 : Nat.succ h * w = h * w + w := Nat.succ_mul h w
        have h6 : (h + 1) * w = h * w + w := h5
        omega)]
    have hfl : (((List.range h).map (fun u => (List.range w).map (g u))).flatten).length
        = h * w := length_flatten_rows g w h
    have hstep := foldl_set_range (g h) (h * w) w
      ((((List.range h).map (fun u => (List.range w).map (g u))).flatten)
        ++ init.drop (h * w))
      (by
        simp only [List.length_append, List.length_drop, hfl]
        have h2 := hlen
        have h5 : Nat.succ h * w = h * w + w := Nat.succ_mul h w
        have h6 : (h + 1) * w = h * w + w := h5
        omega)
    rw [hstep]
    have htake2 : ((((List.range h).map (fun u => (List.range w).map (g u))).flatten
        ++ init.drop (h * w)).take (h * w)) =
        ((List.range h).map (fun u => (List.range w).map (g u))).flatten :=
      List.take_left' hfl
    have hdrop2 : ((((List.range h).map (fun u => (List.range w).map (g u))).flatten
        ++ init.drop (h * w)).drop (h * w + w)) = init.drop ((h + 1) * w) := by
      rw [← hfl, List.drop_append, List.drop_drop]
      congr 1
      have h5 : Nat.succ h * w = h * w + w := Nat.succ_mul h w
      have h6 : (h + 1) * w = h * w + w := h5
      omega
    rw [htake2, hdrop2]
    simp [List.range_succ, List.append_assoc]
lemma flatten_grid_getD {α : Type} (d : α) (w : ℕ) :
    ∀ (h : ℕ) (g : ℕ → ℕ → α) (u v : ℕ), u < h → v < w →
      (((List.range h).map (fun u2 => (List.range w).map (g u2))).flatten).getD
          (u * w + v) d = g u v := by
  intro h
  induction h with
  | zero =>
    intro g u v hu hv
    exact absurd hu (Nat.not_lt_zero u)
  | succ h ih =>
    intro g u v hu hv
    rw [List.range_succ_eq_map, List.map_cons, List.map_map, List.flatten_cons]
    match u with
    | 0 =>
      rw [Nat.zero_mul, Nat.zero_add, List.getD_eq_getElem?_getD,
        List.getElem?_append_left (by simpa using hv)]
      simp [List.getElem?_map, List.getElem?_range hv]
    | u + 1 =>
      have hlen : ((List.range w).map (g 0)).length = w := by simp
      have hidx : (u + 1) * w + v = w + (u * w + v) := by
        have h5 : (u + 1) * w = u * w + w := Nat.succ_mul u w
        omega
      rw [hidx, List.getD_eq_getElem?_getD,
        List.getElem?_append_right (by simp), ← List.getD_eq_getElem?_getD]
      have ihu := ih (fun x => g (x + 1)) u v (Nat.lt_of_succ_lt_succ hu) hv
      simp only [hlen, Nat.add_sub_cancel_left]
      have hcomp : ((fun u2 => (List.range w).map (g u2)) ∘ Nat.succ) =
          (fun x => (List.range w).map (g (x + 1))) := by
        funext x
        rfl
      rw [hcomp]
      exact ihu

lemma copy_scan_to_cloud_points (cloud : Cloud) (ls : LidarScan) (scan_ts : Int)
    (pF : ℕ → ℝ × ℝ × ℝ) (rg rf nr sg : Mat)
    (hlen : ls.h * ls.w ≤ cloud.points.length) :
    (copy_scan_to_cloud cloud ls scan_ts pF rg rf nr sg).points =
      ((List.range ls.h).map (fun u => (List.range ls.w).map
        (fun v => copyPoint ls scan_ts pF rg rf nr sg u v))).flatten
        ++ cloud.points.drop (ls.h * ls.w) := by
  unfold copy_scan_to_cloud
  exact foldl_grid (fun u v => copyPoint ls scan_ts pF rg rf nr sg u v) ls.w
    ls.h cloud.points hlen

lemma getD_append_left {α : Type} (l1 l2 : List α) (d : α) (i : ℕ)
    (h : i < l1.length) : (l1 ++ l2).getD i d = l1.getD i d := by
  rw [List.getD_eq_getElem?_getD, List.getElem?_append_left h,
    ← List.getD_eq_getElem?_getD]

lemma grid_fold_length {α : Type} (g : ℕ → ℕ → α) (w h : ℕ) (init : List α)
    (hlen : h * w ≤ init.length) :
    ((List.range h).foldl (fun pts u => (List.range w).foldl
        (fun pts2 v => pts2.set (u * w + v) (g u v)) pts) init).length
      = init.length := by
  rw [foldl_grid g w h init hlen, List.length_append, length_flatten_rows,
    List.length_drop]
  omega

lemma grid_fold_getD {α : Type} (d : α) (g : ℕ → ℕ → α) (w h : ℕ) (init : List α)
    (hlen : h * w ≤ init.length) (u v : ℕ) (hu : u < h) (hv : v < w) :
    ((List.range h).foldl (fun pts u => (List.range w).foldl
        (fun pts2 v => pts2.set (u * w + v) (g u v)) pts) init).getD (u * w + v) d
      = g u v := by
  rw [foldl_grid g w h init hlen]
  have h5 : (u + 1) * w = u * w + w := Nat.succ_mul u w
  have h6 : (u + 1) * w ≤ h * w := Nat.mul_le_mul_right w hu
  rw [getD_append_left _ _ _ _ (by rw [length_flatten_rows]; omega)]
  exact flatten_grid_getD d w h g u v hu hv

lemma resize_keep (c : Cloud) (n : ℕ) (hn : c.width * c.height = n)
    (hl : c.points.length = n) : c.resize n = c := by
  unfold Cloud.resize
  rw [if_neg (by omega), if_pos (le_of_eq hl.symm),
    show c.points.take n = c.points from by
      rw [← hl]; exact List.take_length c.points]

end Helpers

/-- Claim C7: destaggering with an all-zero shift table is the identity
transform: every row gets offset 0, the first copy loop then rewrites the
whole row with the source row, and the second loop is empty. -/
theorem C7_zero_shift_identity (c : Cloud)
    (hlen : c.points.length = c.width * c.height) (hw : c.width < 2 ^ 32) :
    clouddestagger c (List.replicate c.height 0) = Except.ok c := by
  rcases c with ⟨w, h, pts⟩
  simp only at hlen
  unfold clouddestagger
  rw [if_neg (by simp)]
  simp only [Except.ok.injEq, Cloud.mk.injEq, true_and]
  have hrows : ∀ asd ∈ List.range h,
      destaggerRow w (cppOffset ((List.replicate h (0 : Int)).getD asd 0) w)
          ((Cloud.mk w h pts).row asd)
        = (pts.drop (asd * w)).take w := by
    intro asd hasd
    rw [getD_replicate_zero, cppOffset_zero w hw,
      destaggerRow_zero _ _ (row_length (Cloud.mk w h pts) hlen asd (by simpa using hasd))]
    rfl
  rw [List.map_congr_left hrows, flatten_chunks w h pts hlen]

lemma copy_scan_to_cloud_props (ls : LidarScan) (scan_ts : Int)
    (pF : ℕ → ℝ × ℝ × ℝ) (rg rf nr sg : Mat) (cloud : Cloud)
    (h1 : cloud.width = ls.w) (h2 : cloud.height = ls.h)
    (h3 : cloud.points.length = cloud.width * cloud.height) :
    (copy_scan_to_cloud cloud ls scan_ts pF rg rf nr sg).width = ls.w ∧
    (copy_scan_to_cloud cloud ls scan_ts pF rg rf nr sg).height = ls.h ∧
    (copy_scan_to_cloud cloud ls scan_ts pF rg rf nr sg).points.length
        = ls.h * ls.w ∧
    ∀ u v, u < ls.h → v < ls.w →
      (copy_scan_to_cloud cloud ls scan_ts pF rg rf nr sg).points.getD
          (u * ls.w + v) Point.zero
        = copyPoint ls scan_ts pF rg rf nr sg u v := by
  have hcl : ls.h * ls.w ≤ cloud.points.length := by
    rw [h3, h1, h2, Nat.mul_comm]
  refine ⟨h1, h2, ?_, ?_⟩
  · show ((List.range ls.h).foldl _ cloud.points).length = ls.h * ls.w
    rw [grid_fold_length _ _ _ _ hcl, h3, h1, h2, Nat.mul_comm]
  · intro u v hu hv
    exact grid_fold_getD Point.zero _ ls.w ls.h cloud.points hcl u v hu hv

lemma scan_to_cloud_props (ls : LidarScan) (scan_ts : Int)
    (dir off : ℕ → ℝ × ℝ × ℝ) (cloud2 : Cloud) (ri : Int)
    (h4 : cloud2.width = ls.w) (h5 : cloud2.height = ls.h)
    (h6 : cloud2.points.length = cloud2.width * cloud2.height) :
    ∃ out, scan_to_cloud dir off scan_ts ls cloud2 ri = Except.ok out ∧
      out.width = ls.w ∧ out.height = ls.h ∧
      out.points.length = ls.h * ls.w ∧
      ∀ u v, u < ls.h → v < ls.w →
        out.points.getD (u * ls.w + v) Point.zero =
          scanPoint ls scan_ts
            (cartesianT
              (get_or_fill_zero 32
                (if ri == 1 then ChanField.RANGE2 else ChanField.RANGE) ls)
              ls.w dir off)
            (get_or_fill_zero 32
              (if ri == 1 then ChanField.RANGE2 else ChanField.RANGE) ls)
            (get_or_fill_zero 16
              (if ri == 1 then ChanField.REFLECTIVITY2 else ChanField.REFLECTIVITY) ls)
            (get_or_fill_zero 16 ChanField.NEAR_IR ls)
            (get_or_fill_zero 32
              (if ri == 1 then ChanField.SIGNAL2 else ChanField.SIGNAL) ls)
            u v := by
  have hres : cloud2.resize (ls.w * ls.h) = cloud2 :=
    resize_keep cloud2 _ (by rw [h4, h5]) (by rw [h6, h4, h5])
  have hc2 : ls.h * ls.w ≤ cloud2.points.length := by
    rw [h6, h4, h5, Nat.mul_comm]
  refine ⟨_, rfl, ?_⟩
  rw [hres, h4, h5]
  dsimp only
  refine ⟨rfl, rfl, ?_, ?_⟩
  · rw [grid_fold_length _ _ _ _ hc2, h6, h4, h5, Nat.mul_comm]
  · intro u v hu hv
    exact grid_fold_getD Point.zero _ ls.w ls.h cloud2.points hc2 u v hu hv

/-- Claim C5: for every H x W input frame, both conversion paths produce a
cloud of exactly H*W points whose grid dimensions equal the frame dimensions,
and the point for pixel (u, v) is written (exactly once) at the native index
u*W + v: the full point vector is characterized pointwise.  The dimension
hypotheses are the precondition asserted by scan_to_cloud_f and established
by the resize call of scan_to_cloud. -/
theorem C5_native_grid (ls : LidarScan) (scan_ts : Int)
    (pF dir off : ℕ → ℝ × ℝ × ℝ) (rg rf nr sg : Mat) (cloud cloud2 : Cloud)
    (ri : Int)
    (h1 : cloud.width = ls.w) (h2 : cloud.height = ls.h)
    (h3 : cloud.points.length = cloud.width * cloud.height)
    (h4 : cloud2.width = ls.w) (h5 : cloud2.height = ls.h)
    (h6 : cloud2.points.length = cloud2.width * cloud2.height) :
    ((copy_scan_to_cloud cloud ls scan_ts pF rg rf nr sg).width = ls.w ∧
     (copy_scan_to_cloud cloud ls scan_ts pF rg rf nr sg).height = ls.h ∧
     (copy_scan_to_cloud cloud ls scan_ts pF rg rf nr sg).points.length
        = ls.h * ls.w ∧
     ∀ u v, u < ls.h → v < ls.w →
       (copy_scan_to_cloud cloud ls scan_ts pF rg rf nr sg).points.getD
           (u * ls.w + v) Point.zero
         = copyPoint ls scan_ts pF rg rf nr sg u v) ∧
    (∃ out, scan_to_cloud dir off scan_ts ls cloud2 ri = Except.ok out ∧
      out.width = ls.w ∧ out.height = ls.h ∧
      out.points.length = ls.h * ls.w ∧
      ∀ u v, u < ls.h → v < ls.w →
        out.points.getD (u * ls.w + v) Point.zero =
          scanPoint ls scan_ts
            (cartesianT
              (get_or_fill_zero 32
                (if ri == 1 then ChanField.RANGE2 else ChanField.RANGE) ls)
              ls.w dir off)
            (get_or_fill_zero 32
              (if ri == 1 then ChanField.RANGE2 else ChanField.RANGE) ls)
            (get_or_fill_zero 16
              (if ri == 1 then ChanField.REFLECTIVITY2 else ChanField.REFLECTIVITY) ls)
            (get_or_fill_zero 16 ChanField.NEAR_IR ls)
            (get_or_fill_zero 32
              (if ri == 1 then ChanField.SIGNAL2 else ChanField.SIGNAL) ls)
            u v) :=
  ⟨copy_scan_to_cloud_props ls scan_ts pF rg rf nr sg cloud h1 h2 h3,
   scan_to_cloud_props ls scan_ts dir off cloud2 ri h4 h5 h6⟩

/-- Claim C3 amended: the emitted relative timestamp is not clamped into
[0, frame_duration].  copy_scan_to_cloud stores
`min(timestamp[v] - scan_ts, scan_ts)` reduced modulo 2^32 (the upper bound
is the absolute frame-start count, and a negative difference wraps the
unsigned field), while scan_to_cloud stores `timestamp[v] - scan_ts` modulo
2^32 with no bound at all. -/
theorem C3_amended_timestamp (ls : LidarScan) (scan_ts : Int)
    (pF dir off : ℕ → ℝ × ℝ × ℝ) (rg rf nr sg : Mat) (cloud cloud2 : Cloud)
    (ri : Int)
    (h1 : cloud.width = ls.w) (h2 : cloud.height = ls.h)
    (h3 : cloud.points.length = cloud.width * cloud.height)
    (h4 : cloud2.width = ls.w) (h5 : cloud2.height = ls.h)
    (h6 : cloud2.points.length = cloud2.width * cloud2.height)
    (u v : ℕ) (hu : u < ls.h) (hv : v < ls.w)
    (hts : ls.timestamp v < 2 ^ 63) :
    ((copy_scan_to_cloud cloud ls scan_ts pF rg rf nr sg).points.getD
        (u * ls.w + v) Point.zero).t
      = ((min ((ls.timestamp v : Int) - scan_ts) scan_ts)
          % (2 ^ 32 : Int)).toNat ∧
    (∀ out, scan_to_cloud dir off scan_ts ls cloud2 ri = Except.ok out →
      (out.points.getD (u * ls.w + v) Point.zero).t
        = (((ls.timestamp v : Int) - scan_ts) % (2 ^ 32 : Int)).toNat) := by
  constructor
  · have hg := (copy_scan_to_cloud_props ls scan_ts pF rg rf nr sg cloud
      h1 h2 h3).2.2.2 u v hu hv
    rw [hg]
    rfl
  · intro out hout
    obtain ⟨out2, heq, _, _, _, hp⟩ :=
      scan_to_cloud_props ls scan_ts dir off cloud2 ri h4 h5 h6
    rw [heq, Except.ok.injEq] at hout
    rw [← hout, hp u v hu hv]
    rfl

/-- Claim C3 counterexample: with frame-start timestamp 1000 ns and column
timestamp 500 ns (before frame start) the emitted point of
copy_scan_to_cloud carries relative timestamp 2^32 - 500 = 4294966796, not
the claimed clamped value 0: the unsigned field wraps. -/
theorem C3_clamp_counterexample :
    (lsLate.timestamp 0 : Int) < 1000 ∧
    ((copy_scan_to_cloud cloud11 lsLate 1000 dir0 zeroM zeroM zeroM
        zeroM).points.getD 0 Point.zero).t = 4294966796 ∧
    ((copy_scan_to_cloud cloud11 lsLate 1000 dir0 zeroM zeroM zeroM
        zeroM).points.getD 0 Point.zero).t ≠ 0 := by
  refine ⟨by decide, rfl, by decide⟩

/-- Claim C3 witness: the amended timestamp formula applied to the concrete
1 x 1 frame `lsLate` at pixel (0, 0) with frame start 1000. -/
theorem C3_amended_witness :
    lsLate.timestamp 0 < 2 ^ 63 ∧
    ((copy_scan_to_cloud cloud11 lsLate 1000 dir0 zeroM zeroM zeroM
        zeroM).points.getD 0 Point.zero).t = 4294966796 :=
  ⟨by decide,
   (C3_amended_timestamp lsLate 1000 dir0 dir0 dir0 zeroM zeroM zeroM zeroM
     cloud11 cloud11 0 rfl rfl rfl rfl rfl rfl 0 0 (by decide) (by decide)
     (by decide)).1⟩

/-- Claim C10: when scan_to_cloud_f is invoked with destagger = false, the
caller-supplied destaggered-cloud buffer comes back exactly as it was
passed, on every control path (dimension-assert failure, missing range
channel, or success). -/
theorem C10_destagger_off_buffer_untouched (dir off : ℕ → ℝ × ℝ × ℝ)
    (scan_ts : Int) (ls : LidarScan) (cloud dcloud : Cloud) (ri : Int)
    (shifts : List Int) (destagger : Bool) (hd : destagger = false) :
    (scan_to_cloud_f dir off scan_ts ls cloud dcloud ri shifts
        destagger).2.1 = dcloud := by
  subst hd
  unfold scan_to_cloud_f
  simp only [Bool.false_eq_true, if_false]
  split
  · split <;> rfl
  · rfl

/-- Claim C10 witness: the buffer-identity applied to a concrete call. -/
theorem C10_witness :
    (false = false) ∧
    (scan_to_cloud_f dir0 dir0 0 lsLate cloud11 cloud11 0 [] false).2.1
      = cloud11 :=
  ⟨rfl, C10_destagger_off_buffer_untouched dir0 dir0 0 lsLate cloud11 cloud11
    0 [] false rfl⟩

/-- Claim C6 amended: get_or_fill_zero substitutes an all-zero matrix for
every field absent from the frame, and a secondary-return request for
NEAR_IR resolves to the primary NEAR_IR channel; however the range channel
used by scan_to_cloud_f is fetched directly with the throwing ls.field
accessor, so a frame without its range channel aborts the conversion
instead of being zero-filled (only scan_to_cloud zero-fills range). -/
theorem C6_amended_field_extraction :
    (∀ (bits : ℕ) (f : ChanField) (ls : LidarScan), ls.fields f = none →
      ∀ u v, get_or_fill_zero bits f ls u v = 0) ∧
    (∀ second : Bool, suitable_return ChanField.NEAR_IR second
        = Except.ok ChanField.NEAR_IR) ∧
    (∀ (dir off : ℕ → ℝ × ℝ × ℝ) (scan_ts : Int) (ls : LidarScan)
        (cloud dcloud : Cloud) (ri : Int) (shifts : List Int) (dflag : Bool),
      ls.fields (if ri == 1 then ChanField.RANGE2 else ChanField.RANGE)
          = none →
      (scan_to_cloud_f dir off scan_ts ls cloud dcloud ri shifts dflag).2.2
        ≠ Except.ok ()) := by
  refine ⟨?_, ?_, ?_⟩
  · intro bits f ls hnone u v
    unfold get_or_fill_zero
    rw [hnone]
  · intro second
    rfl
  · intro dir off scan_ts ls cloud dcloud ri shifts dflag hnone
    have hfield : lidar_field ls
        (if ri == 1 then ChanField.RANGE2 else ChanField.RANGE)
        = Except.error "LidarScan does not contain field" := by
      unfold lidar_field
      rw [hnone]
    unfold scan_to_cloud_f
    split
    · simp only [beq_iff_eq] at hfield
      simp [hfield]
    · simp

/-- Claim C6 counterexample: on a frame without a RANGE channel the direct
ls.field fetch used by scan_to_cloud_f raises instead of producing the
all-zero matrix the claim describes, and the conversion aborts; the
zero-filling extractor itself would have returned 0. -/
theorem C6_range_not_zero_filled :
    lidar_field lsLate ChanField.RANGE
      = Except.error "LidarScan does not contain field" ∧
    (scan_to_cloud_f dir0 dir0 0 lsLate cloud11 cloud11 0 [] false).2.2
      = Except.error "LidarScan does not contain field" ∧
    get_or_fill_zero 32 ChanField.RANGE lsLate 0 0 = 0 :=
  ⟨rfl, rfl, rfl⟩

/-- Claim C6 witness: the amended extraction properties applied to the
concrete channel-less frame lsLate. -/
theorem C6_amended_witness :
    lsLate.fields ChanField.RANGE = none ∧
    get_or_fill_zero 32 ChanField.RANGE lsLate 0 0 = 0 ∧
    suitable_return ChanField.NEAR_IR true = Except.ok ChanField.NEAR_IR ∧
    (scan_to_cloud_f dir0 dir0 0 lsLate cloud11 cloud11 0 [] false).2.2
      ≠ Except.ok () :=
  ⟨rfl,
   C6_amended_field_extraction.1 32 ChanField.RANGE lsLate rfl 0 0,
   C6_amended_field_extraction.2.1 true,
   C6_amended_field_extraction.2.2 dir0 dir0 0 lsLate cloud11 cloud11 0 []
     false rfl⟩

lemma atan2_zero_one : atan2 0 1 = 0 := by
  unfold atan2
  have h : (⟨1, 0⟩ : ℂ) = 1 := by
    apply Complex.ext <;> simp
  rw [h, Complex.arg_one]

lemma atan2_one_zero : atan2 1 0 = Real.pi / 2 := by
  unfold atan2
  have h : (⟨0, 1⟩ : ℂ) = Complex.I := by
    apply Complex.ext <;> simp
  rw [h, Complex.arg_I]

lemma atan2_neg_one_zero : atan2 (-1) 0 = -(Real.pi / 2) := by
  unfold atan2
  have h : (⟨0, -1⟩ : ℂ) = -Complex.I := by
    apply Complex.ext <;> simp
  rw [h, Complex.arg_neg_I]

/-- Claim C9 amended: the validator verdict holds exactly when no adjacent
strictly-increasing pair of nonzero angles occurs, with azimuth scanned only
along the row of index 1 (not every row) and elevation scanned only down the
column of index 1 (not column 0); a sample is skipped whenever its angle is
exactly zero; the verdict is a returned boolean, never an exception. -/
theorem C9_amended_validator (c : Cloud) (h1 : 1 ≤ c.width)
    (h2 : 1 ≤ c.height) :
    checkofDestagger c ↔
      ((∀ i < c.width - 1, ¬ azBad c i) ∧
       (∀ i < c.height - 1, ¬ elBad c i)) := by
  unfold checkofDestagger
  exact and_congr (loopOk_iff _ _) (loopOk_iff _ _)

/-- Claim C9 counterexample: on the cloud K9 the source verdict is success
(all angles it inspects on row 1 / column 1 are zero and skipped), while the
claimed condition fails down column 0, whose elevation angles strictly
increase from -pi/2 to pi/2 on non-degenerate samples; so the claimed
equivalence is false. -/
theorem C9_validator_counterexample :
    ¬ (checkofDestagger K9 ↔ C9_claimed K9) := by
  intro hiff
  have hchk : checkofDestagger K9 := by
    unfold checkofDestagger
    refine ⟨(loopOk_iff _ _).mpr ?_, (loopOk_iff _ _).mpr ?_⟩
    · intro i hi
      have hi0 : i = 0 := by
        have : K9.width = 2 := rfl
        omega
      subst hi0
      rintro ⟨_, hne, _⟩
      exact hne atan2_zero_one
    · intro i hi
      have hi0 : i = 0 := by
        have : K9.height = 2 := rfl
        omega
      subst hi0
      rintro ⟨_, hne, _⟩
      apply hne
      show atan2 0 ((1 : ℕ) : ℝ) = 0
      rw [Nat.cast_one]
      exact atan2_zero_one
  have hclaim := hiff.mp hchk
  have helev := hclaim.2 0 (by norm_num [K9])
  apply helev
  refine ⟨?_, ?_, ?_⟩
  · have e0 : atan2 (K9.pix 0 0).z ((K9.pix 0 0).range : ℝ)
        = -(Real.pi / 2) := by
      show atan2 (-1) ((0 : ℕ) : ℝ) = _
      rw [Nat.cast_zero]
      exact atan2_neg_one_zero
    have e1 : atan2 (K9.pix 0 1).z ((K9.pix 0 1).range : ℝ)
        = Real.pi / 2 := by
      show atan2 1 ((0 : ℕ) : ℝ) = _
      rw [Nat.cast_zero]
      exact atan2_one_zero
    rw [e0, e1]
    have := Real.pi_pos
    linarith
  · rintro ⟨hz, _⟩
    have hz2 : (-1 : ℝ) = 0 := hz
    norm_num at hz2
  · rintro ⟨hz, _⟩
    have hz2 : (1 : ℝ) = 0 := hz
    norm_num at hz2

/-- Claim C9 witness: the amended validator characterization applied to the
concrete cloud K9. -/
theorem C9_amended_witness :
    1 ≤ K9.width ∧
    (checkofDestagger K9 ↔
      ((∀ i < K9.width - 1, ¬ azBad K9 i) ∧
       (∀ i < K9.height - 1, ¬ elBad K9 i))) :=
  ⟨by decide, C9_amended_validator K9 (by decide) (by decide)⟩

/-- Claim C8: the inertial sample scales raw accelerations by standard
gravity 9.80665 and raw angular rates by pi/180, reports an all-zero
orientation quaternion with orientation-covariance[0] = -1, and carries the
fixed covariance diagonals 0.01 (acceleration) and 6e-4 (angular velocity);
in particular the zero packet yields zero acceleration and angular
velocity. -/
theorem C8_imu_message (ts : Int) (frame : String)
    (lax lay laz avx avy avz : ℝ) :
    (packet_to_imu_msg ts frame lax lay laz avx avy avz).linear_acceleration_x
        = lax * 9.80665 ∧
    (packet_to_imu_msg ts frame lax lay laz avx avy avz).linear_acceleration_y
        = lay * 9.80665 ∧
    (packet_to_imu_msg ts frame lax lay laz avx avy avz).linear_acceleration_z
        = laz * 9.80665 ∧
    (packet_to_imu_msg ts frame lax lay laz avx avy avz).angular_velocity_x
        = avx * Real.pi / 180 ∧
    (packet_to_imu_msg ts frame lax lay laz avx avy avz).angular_velocity_y
        = avy * Real.pi / 180 ∧
    (packet_to_imu_msg ts frame lax lay laz avx avy avz).angular_velocity_z
        = avz * Real.pi / 180 ∧
    (packet_to_imu_msg ts frame lax lay laz avx avy avz).orientation_x = 0 ∧
    (packet_to_imu_msg ts frame lax lay laz avx avy avz).orientation_y = 0 ∧
    (packet_to_imu_msg ts frame lax lay laz avx avy avz).orientation_z = 0 ∧
    (packet_to_imu_msg ts frame lax lay laz avx avy avz).orientation_w = 0 ∧
    (packet_to_imu_msg ts frame lax lay laz avx avy
        avz).orientation_covariance 0 = -1 ∧
    (packet_to_imu_msg ts frame lax lay laz avx avy
        avz).linear_acceleration_covariance 0 = 0.01 ∧
    (packet_to_imu_msg ts frame lax lay laz avx avy
        avz).linear_acceleration_covariance 4 = 0.01 ∧
    (packet_to_imu_msg ts frame lax lay laz avx avy
        avz).linear_acceleration_covariance 8 = 0.01 ∧
    (packet_to_imu_msg ts frame lax lay laz avx avy
        avz).angular_velocity_covariance 0 = 6e-4 ∧
    (packet_to_imu_msg ts frame lax lay laz avx avy
        avz).angular_velocity_covariance 4 = 6e-4 ∧
    (packet_to_imu_msg ts frame lax lay laz avx avy
        avz).angular_velocity_covariance 8 = 6e-4 ∧
    (packet_to_imu_msg ts frame 0 0 0 0 0 0).linear_acceleration_x = 0 ∧
    (packet_to_imu_msg ts frame 0 0 0 0 0 0).linear_acceleration_y = 0 ∧
    (packet_to_imu_msg ts frame 0 0 0 0 0 0).linear_acceleration_z = 0 ∧
    (packet_to_imu_msg ts frame 0 0 0 0 0 0).angular_velocity_x = 0 ∧
    (packet_to_imu_msg ts frame 0 0 0 0 0 0).angular_velocity_y = 0 ∧
    (packet_to_imu_msg ts frame 0 0 0 0 0 0).angular_velocity_z = 0 := by
  refine ⟨rfl, rfl, rfl, rfl, rfl, rfl, rfl, rfl, rfl, rfl, rfl, rfl, rfl,
    rfl, rfl, rfl, rfl, ?_, ?_, ?_, ?_, ?_, ?_⟩ <;>
    simp [packet_to_imu_msg]

/-- Claim C1 (code evaluated at the failing input): destaggering the
one-row cloud [Pa, Pb, Pc] with shift 1 drops Pb and fills the last column
with the constructor zero point, so the spec's re-stagger of the result is
[zero, Pc, Pa], not the original cloud: the round-trip law fails. -/
theorem C1_roundtrip_fails :
    clouddestagger { width := 3, height := 1, points := [Pa, Pb, Pc] } [1]
      = Except.ok { width := 3, height := 1,
                    points := [Pc, Pa, Point.zero] } ∧
    spec_restagger { width := 3, height := 1, points := [Pc, Pa, Point.zero] }
        [1]
      ≠ { width := 3, height := 1, points := [Pa, Pb, Pc] } := by
  refine ⟨rfl, ?_⟩
  intro h
  have h0 : ((spec_restagger
      { width := 3, height := 1, points := [Pc, Pa, Point.zero] }
      [1]).points.getD 0 Point.zero).range = 0 := rfl
  rw [h] at h0
  exact absurd h0 (by decide)

/-- Claim C2 (code evaluated at the failing input): with width 3 and shift
1 the destaggered row is [Pc, Pa, zero]; the claimed left rotation maps
output column k to input column (k + o) mod 3, which demands Pb at column 0
(the code holds Pc: opposite direction) and Pa at column 2 (the code holds
the never-written zero point). -/
theorem C2_left_rotation_fails :
    clouddestagger { width := 3, height := 1, points := [Pa, Pb, Pc] } [1]
      = Except.ok { width := 3, height := 1,
                    points := [Pc, Pa, Point.zero] } ∧
    Cloud.pix { width := 3, height := 1, points := [Pc, Pa, Point.zero] } 0 0
      ≠ Cloud.pix { width := 3, height := 1, points := [Pa, Pb, Pc] }
          ((0 + normOffset 1 3) % 3) 0 ∧
    Cloud.pix { width := 3, height := 1, points := [Pc, Pa, Point.zero] } 2 0
      ≠ Cloud.pix { width := 3, height := 1, points := [Pa, Pb, Pc] }
          ((2 + normOffset 1 3) % 3) 0 := by
  refine ⟨rfl, ?_, ?_⟩
  · intro h
    exact absurd (congrArg Point.range h) (by decide)
  · intro h
    exact absurd (congrArg Point.range h) (by decide)

/-- Claim C4 (code evaluated at the failing input): clouddestagger itself
raises the typed length-mismatch error and returns nothing, but
scan_to_cloud_f has already assigned the native cloud into the caller's
destaggered-cloud buffer when that error is raised, so after the failure
the buffer no longer holds its prior contents. -/
theorem C4_fatal_error_buffer_state :
    clouddestagger cloudPa [1, 2]
      = Except.error "image height does not match shifts size" ∧
    (scan_to_cloud_f dir0 dir0 0 lsR5 cloudPa cloud11 0 [1, 2] true).2.2
      = Except.error "image height does not match shifts size" ∧
    (scan_to_cloud_f dir0 dir0 0 lsR5 cloudPa cloud11 0 [1, 2] true).2.1
      ≠ cloud11 := by
  refine ⟨rfl, rfl, ?_⟩
  intro h
  have h0 : (((scan_to_cloud_f dir0 dir0 0 lsR5 cloudPa cloud11 0 [1, 2]
      true).2.1).points.getD 0 Point.zero).range = 5 := rfl
  rw [h] at h0
  exact absurd h0 (by decide)

/-- Claim C7 witness: the zero-shift identity applied to a concrete 2 x 2
cloud of four distinct points. -/
theorem C7_zero_shift_witness :
    ({ width := 2, height := 2, points := [Pa, Pb, Pc, Pd] }
        : Cloud).points.length = 2 * 2 ∧
    clouddestagger { width := 2, height := 2, points := [Pa, Pb, Pc, Pd] }
        (List.replicate 2 0)
      = Except.ok { width := 2, height := 2, points := [Pa, Pb, Pc, Pd] } :=
  ⟨rfl, C7_zero_shift_identity
    { width := 2, height := 2, points := [Pa, Pb, Pc, Pd] } rfl (by decide)⟩

/-- Claim C5 witness: the native-grid layout applied to the concrete 1 x 1
frame lsLate and cloud cloud11. -/
theorem C5_native_grid_witness :
    cloud11.width = lsLate.w ∧
    (copy_scan_to_cloud cloud11 lsLate 0 dir0 zeroM zeroM zeroM
        zeroM).points.length = 1 :=
  ⟨rfl, (C5_native_grid lsLate 0 dir0 dir0 dir0 zeroM zeroM zeroM zeroM
    cloud11 cloud11 0 rfl rfl rfl rfl rfl rfl).1.2.2.1⟩
